import Mathlib

/-!
Verification of the load-generation core of the `webuniversal-blackbox-test`
repository (`app/services/load_generator.py`), as a shallow embedding in Lean 4.

Python floats are modelled as exact rationals (`ℚ`), machine integers as `ℕ`/`ℤ`,
Python dict/list values as Lean structures and lists, and raised exceptions as
`Except`/`Option` values.  Each definition mirrors one Python function of the
source; theorems below settle the specification claims about them.
-/

namespace LoadGen

/-- Python `int(q)` on a float/rational: truncation toward zero. -/
def pyInt (q : ℚ) : ℤ :=
  if 0 ≤ q.num then ((q.num.toNat / q.den : ℕ) : ℤ)
  else -(((-q.num).toNat / q.den : ℕ) : ℤ)

/-- Insert into a sorted list, keeping ascending order. -/
def insertSorted (x : ℚ) : List ℚ → List ℚ
  | [] => [x]
  | y :: t => if x ≤ y then x :: y :: t else y :: insertSorted x t

/-- Python `sorted(data)`: the ascending reordering of `data` (insertion
sort; on rationals this agrees with any correct ascending sort). -/
def sortAsc (l : List ℚ) : List ℚ := l.foldr insertSorted []

/-! ## Data model

`RequestOutcome` embeds the dict literal returned by
`AdvancedLoadGenerator._execute_request` (load_generator.py lines 422-433). -/

structure RequestOutcome where
  group_id : ℕ
  user_id : ℕ
  request_id : ℕ
  start_time : ℚ
  end_time : ℚ
  duration : ℚ
  success : Bool
  error_message : Option String
  response_time : ℚ
  status_code : Option ℕ
deriving Repr, DecidableEq

/-- Capacity tier, embedding the `LoadGeneratorScale` enum. -/
inductive LoadGeneratorScale where
  | small
  | medium
  | large
deriving Repr, DecidableEq

/-- Embeds the `SystemSpecs` dataclass (the platform/architecture strings are
irrelevant to every claim and omitted). -/
structure SystemSpecs where
  cpu_count : ℕ
  memory_gb : ℚ
  max_recommended_vu : ℕ
  max_recommended_rps : ℕ
  scale : LoadGeneratorScale
deriving Repr, DecidableEq

/-- Embeds the tier-classification logic of
`AdvancedLoadGenerator._get_system_specs` (lines 130-159): the host's CPU count
and memory in GB are the inputs sampled from the OS; the if/elif/else chain is
translated verbatim. -/
def getSystemSpecs (cpu_count : ℕ) (memory_gb : ℚ) : SystemSpecs :=
  if cpu_count ≥ 16 ∧ memory_gb ≥ 32 then
    { cpu_count := cpu_count, memory_gb := memory_gb,
      max_recommended_vu := 10000, max_recommended_rps := 25000,
      scale := LoadGeneratorScale.large }
  else if cpu_count ≥ 8 ∧ memory_gb ≥ 16 then
    { cpu_count := cpu_count, memory_gb := memory_gb,
      max_recommended_vu := 5000, max_recommended_rps := 10000,
      scale := LoadGeneratorScale.medium }
  else
    { cpu_count := cpu_count, memory_gb := memory_gb,
      max_recommended_vu := 1000, max_recommended_rps := 1000,
      scale := LoadGeneratorScale.small }

/-! ## Percentile (`AdvancedLoadGenerator._percentile`, lines 507-520) -/

/-- Embeds `_percentile`: sort the data, compute the fractional index
`(percentile / 100) * (len - 1)`; if it is integral return that element,
otherwise linearly interpolate between the elements at `int(index)` and
`int(index) + 1`.  `index.den = 1` embeds Python's `float.is_integer()` and
`pyInt` embeds `int(index)`; out-of-range indexing (unreachable for
`0 ≤ percentile ≤ 100` on nonempty data) is given the default `0`. -/
def percentile (data : List ℚ) (p : ℕ) : ℚ :=
  if data.isEmpty then 0
  else
    let sorted_data := sortAsc data
    let index : ℚ := ((p : ℚ) / 100) * ((sorted_data.length : ℚ) - 1)
    if index.den = 1 then
      sorted_data.getD (pyInt index).toNat 0
    else
      let lower := sorted_data.getD (pyInt index).toNat 0
      let upper := sorted_data.getD ((pyInt index).toNat + 1) 0
      lower + (upper - lower) * (index - (pyInt index : ℚ))

/-! ## Error categorization (`_categorize_error`, lines 546-561) -/

/-- `startsList h n` is true when `n` occurs at the head of `h`
(character-list version of a leading-match test). -/
def startsList : List Char → List Char → Bool
  | _, [] => true
  | [], _ :: _ => false
  | c :: h, d :: n => c == d && startsList h n

/-- `containsList h n` embeds Python's substring test `n in h` on
character lists: `n` matches at the head of `h` or somewhere in its tail. -/
def containsList : List Char → List Char → Bool
  | [], n => startsList [] n
  | c :: t, n => startsList (c :: t) n || containsList t n

/-- Python `str.lower()` on one ASCII character. -/
def lowerChar (c : Char) : Char :=
  if 65 ≤ c.toNat ∧ c.toNat ≤ 90 then Char.ofNat (c.toNat + 32) else c

/-- Python `str.lower()` for ASCII strings, as a character list. -/
def lowerStr (s : String) : List Char := s.data.map lowerChar

/-- Python substring test `needle in hay` on strings. -/
def strIn (needle : String) (hay : String) : Bool :=
  containsList hay.data needle.data

/-- Substring test against the lowered characters of `hay`. -/
def strInLower (needle : String) (hay : String) : Bool :=
  containsList (lowerStr hay) needle.data

/-- Embeds `_categorize_error` (lines 546-561): `error_lower` is the lowered
message; note the `"404"` and `"500"` tests run against the *original*
`error_message`, all other tests against `error_lower`, exactly as in the
source. -/
def categorizeError (error_message : String) : String :=
  if strInLower "timeout" error_message then "Timeout"
  else if strInLower "network" error_message ∨ strInLower "connection" error_message then
    "Network Error"
  else if strIn "404" error_message ∨ strInLower "not found" error_message then
    "404 Not Found"
  else if strIn "500" error_message ∨ strInLower "server error" error_message then
    "Server Error"
  else if strInLower "javascript" error_message ∨ strInLower "script" error_message then
    "JavaScript Error"
  else "Other Error"

/-- The specification's description of the categorizer, for comparison with
`categorizeError`: classify by substring match, case-insensitive for *every*
pattern (including `404` and `500`), in the stated order. -/
def specCategorizeError (error_message : String) : String :=
  if strInLower "timeout" error_message then "Timeout"
  else if strInLower "network" error_message ∨ strInLower "connection" error_message then
    "Network Error"
  else if strInLower "404" error_message ∨ strInLower "not found" error_message then
    "404 Not Found"
  else if strInLower "500" error_message ∨ strInLower "server error" error_message then
    "Server Error"
  else if strInLower "javascript" error_message ∨ strInLower "script" error_message then
    "JavaScript Error"
  else "Other Error"

/-- Embeds `_analyze_errors` (lines 537-544) as the per-category tally of the
error dict: for each category string, the number of failed outcomes whose
error message is truthy (present and nonempty) and categorizes to it. -/
def analyzeErrors (results : List RequestOutcome) (category : String) : ℕ :=
  results.countP fun r =>
    !r.success &&
      match r.error_message with
      | none => false
      | some m => !(m == "") && (categorizeError m == category)

/-! ## Statistics reduction (`_calculate_results`, lines 435-505) -/

/-- Python `min(l)` on a nonempty list (`0` on the unused empty case). -/
def listMin : List ℚ → ℚ
  | [] => 0
  | x :: t => t.foldl min x

/-- Python `max(l)` on a nonempty list (`0` on the unused empty case). -/
def listMax : List ℚ → ℚ
  | [] => 0
  | x :: t => t.foldl max x

/-- Python `statistics.mean(l)` on a nonempty list. -/
def listMean (l : List ℚ) : ℚ := l.sum / (l.length : ℚ)

/-- The one-second bucket of an outcome: `int(result['start_time'])`
(line 530). -/
def bucketOf (r : RequestOutcome) : ℤ := pyInt r.start_time

/-- The distinct bucket keys of the `windows` dict built at lines 528-533. -/
def windowKeys (results : List RequestOutcome) : List ℤ :=
  (results.map bucketOf).dedup

/-- The count stored in the `windows` dict for key `w`. -/
def windowCount (results : List RequestOutcome) (w : ℤ) : ℕ :=
  (results.map bucketOf).count w

/-- Embeds `_calculate_peak_rps` (lines 522-535): group outcomes into
one-second buckets by truncated start time and return the maximum bucket
count (`0.0` when there are no results). -/
def calculatePeakRps (results : List RequestOutcome) : ℚ :=
  if results.isEmpty then 0
  else ((windowKeys results).map fun w => (windowCount results w : ℚ)).foldr max 0

/-- Embeds the `LoadTestResult` dataclass (the string `test_id`, the resource
fields and the `SystemSpecs` payload carry no claim content and are
omitted); `errors` embeds the error dict as its count function. -/
structure LoadTestResult where
  start_time : ℚ
  end_time : ℚ
  duration : ℚ
  total_requests : ℕ
  successful_requests : ℕ
  failed_requests : ℕ
  success_rate : ℚ
  avg_response_time : ℚ
  min_response_time : ℚ
  max_response_time : ℚ
  p50_response_time : ℚ
  p90_response_time : ℚ
  p95_response_time : ℚ
  p99_response_time : ℚ
  requests_per_second : ℚ
  peak_rps : ℚ
  average_rps : ℚ
  errors : String → ℕ
  error_rate : ℚ

/-- Embeds `_create_empty_result` (lines 563-592). -/
def createEmptyResult : LoadTestResult :=
  { start_time := 0, end_time := 0, duration := 0,
    total_requests := 0, successful_requests := 0, failed_requests := 0,
    success_rate := 0,
    avg_response_time := 0, min_response_time := 0, max_response_time := 0,
    p50_response_time := 0, p90_response_time := 0, p95_response_time := 0,
    p99_response_time := 0,
    requests_per_second := 0, peak_rps := 0, average_rps := 0,
    errors := fun _ => 0, error_rate := 0 }

/-- Embeds `_calculate_results` (lines 435-505).  `results` is the shared
result list; `start_time`/`end_time` are the orchestrator's run timestamps
(`self.start_time`, `self.end_time`; Python truthiness of the
`if self.end_time and self.start_time` guard is a nonzero test). -/
def calculateResults (results : List RequestOutcome) (start_time end_time : ℚ) :
    LoadTestResult :=
  if results.isEmpty then createEmptyResult
  else
    let total_requests := results.length
    let successful_requests := results.countP (·.success)
    let failed_requests := total_requests - successful_requests
    let success_rate : ℚ :=
      if total_requests > 0 then (successful_requests : ℚ) / total_requests * 100 else 0
    let response_times :=
      (results.filter fun r => r.success && decide (r.response_time > 0)).map
        (·.response_time)
    let avg_response_time := if response_times.isEmpty then 0 else listMean response_times
    let min_response_time := if response_times.isEmpty then 0 else listMin response_times
    let max_response_time := if response_times.isEmpty then 0 else listMax response_times
    let p50 := if response_times.isEmpty then 0 else percentile response_times 50
    let p90 := if response_times.isEmpty then 0 else percentile response_times 90
    let p95 := if response_times.isEmpty then 0 else percentile response_times 95
    let p99 := if response_times.isEmpty then 0 else percentile response_times 99
    let total_duration : ℚ :=
      if end_time ≠ 0 ∧ start_time ≠ 0 then end_time - start_time else 0
    let requests_per_second : ℚ :=
      if total_duration > 0 then (total_requests : ℚ) / total_duration else 0
    let peak_rps := calculatePeakRps results
    let error_rate : ℚ :=
      if total_requests > 0 then (failed_requests : ℚ) / total_requests * 100 else 0
    { start_time := start_time, end_time := end_time, duration := total_duration,
      total_requests := total_requests,
      successful_requests := successful_requests,
      failed_requests := failed_requests,
      success_rate := success_rate,
      avg_response_time := avg_response_time,
      min_response_time := min_response_time,
      max_response_time := max_response_time,
      p50_response_time := p50, p90_response_time := p90,
      p95_response_time := p95, p99_response_time := p99,
      requests_per_second := requests_per_second,
      peak_rps := peak_rps,
      average_rps := requests_per_second,
      errors := analyzeErrors results,
      error_rate := error_rate }

/-! ## Configuration and capacity validation
(`LoadGeneratorConfig`, `_validate_system_capacity`, `run_load_test`) -/

/-- Embeds the claim-relevant fields of the `LoadGeneratorConfig`
dataclass (lines 39-65), with the source's defaults. -/
structure LoadGeneratorConfig where
  virtual_users : ℕ := 10
  duration_seconds : ℕ := 60
  ramp_up_seconds : ℕ := 10
  ramp_down_seconds : ℕ := 10
  think_time_seconds : ℚ := 1
  max_concurrent_browsers : ℕ := 5
  max_cpu_usage_percent : ℚ := 80
  max_memory_usage_percent : ℚ := 85
deriving Repr

/-- The host CPU%/memory% values sampled by `psutil` inside
`_validate_system_capacity` (lines 197-198). -/
structure HostSample where
  cpu_percent : ℚ
  memory_percent : ℚ
deriving Repr

/-- Embeds `_validate_system_capacity` (lines 190-208): reject when the
requested virtual users exceed the recommendation, or when the sampled CPU or
memory percentage exceeds the configured threshold. -/
def validateSystemCapacity (specs : SystemSpecs) (config : LoadGeneratorConfig)
    (host : HostSample) : Bool :=
  if config.virtual_users > specs.max_recommended_vu then false
  else if host.cpu_percent > config.max_cpu_usage_percent then false
  else if host.memory_percent > config.max_memory_usage_percent then false
  else true

/-- Embeds `run_load_test` (lines 161-188) at the granularity the claims
need: validation runs first, before the start timestamp, the resource
monitor and any browser work; on failure a `ValueError` is raised while
`self.results` is still its initial `[]`.  On success the workload runs —
`workload` stands for the outcomes `_execute_load_test` appends — and the
result is reduced by `_calculate_results`.  The second component is the
final content of `self.results`. -/
def runLoadTest (specs : SystemSpecs) (config : LoadGeneratorConfig)
    (host : HostSample) (workload : List RequestOutcome)
    (start_time end_time : ℚ) :
    Except String LoadTestResult × List RequestOutcome :=
  if validateSystemCapacity specs config host then
    (Except.ok (calculateResults workload start_time end_time), workload)
  else
    (Except.error "System capacity insufficient for requested load", [])

/-! ## Thread groups and ramp-up staggering
(`_execute_thread_group` lines 293-318, `_simulate_virtual_user` lines 320-331) -/

/-- A thread group as consumed by `_execute_thread_group`: its own user count
and ramp-up (either overrides from `config.thread_groups` or the defaults
copied from the top-level config by `_create_thread_groups`). -/
structure ThreadGroup where
  virtual_users : ℕ
  ramp_up_seconds : ℕ
deriving Repr, DecidableEq

/-- Embeds the ramp-up delay computed at lines 329-331 of
`_simulate_virtual_user`:
`ramp_delay = (user_id / self.config.virtual_users) * ramp_up` when
`ramp_up > 0`, else no sleep.  Note the divisor is the *top-level config's*
`virtual_users`, not the thread group's own count. -/
def rampDelay (config_virtual_users : ℕ) (user_id : ℕ) (ramp_up : ℕ) : ℚ :=
  if ramp_up > 0 then ((user_id : ℚ) / (config_virtual_users : ℚ)) * (ramp_up : ℚ)
  else 0

/-- The ramp-up delays of the simulators launched by `_execute_thread_group`
(lines 308-315): one per `user_id in range(group.virtual_users)`, each
computed by `rampDelay` against the top-level config count. -/
def groupRampDelays (config_virtual_users : ℕ) (g : ThreadGroup) : List ℚ :=
  (List.range g.virtual_users).map fun user_id =>
    rampDelay config_virtual_users user_id g.ramp_up_seconds

/-! ## Request executor (`_execute_request`, lines 362-433) -/

/-- The browser-provider calls made inside the `try` block of
`_execute_request`, in program order. -/
inductive BrowserStep where
  | launch
  | newContext
  | newPage
  | navigate
  | closePage
  | closeContext
  | closeBrowser
deriving Repr, DecidableEq

/-- One invocation's browser behaviour: which call (if any) raises first and
with what message, and the value of `response.status` on a successful
navigation (`none` embeds a falsy `response`). -/
structure BrowserBehavior where
  failAt : Option (BrowserStep × String)
  gotoStatus : Option ℕ
deriving Repr, DecidableEq

/-- The calls of the `try` block in source order (launch, `new_context`,
`new_page`, `goto`, then the three teardown closes). -/
def execSteps : List BrowserStep :=
  [BrowserStep.launch, BrowserStep.newContext, BrowserStep.newPage,
   BrowserStep.navigate, BrowserStep.closePage, BrowserStep.closeContext,
   BrowserStep.closeBrowser]

/-- The local mutable state of `_execute_request` (lines 364-368). -/
structure ExecState where
  success : Bool
  response_time : ℚ
  status_code : Option ℕ
deriving Repr, DecidableEq

/-- The straight-line state updates attached to each provider call: after a
successful `goto`, lines 404-408 record the status code, the response time
and `success = True`; the other calls leave the local state unchanged. -/
def applyStep (b : BrowserBehavior) (navTime : ℚ) (s : BrowserStep)
    (st : ExecState) : ExecState :=
  match s with
  | BrowserStep.navigate =>
      { st with
        status_code := match b.gotoStatus with
          | some c => some c
          | none => st.status_code,
        response_time := navTime,
        success := true }
  | _ => st

/-- Runs the `try` block: execute the provider calls in order, stopping at
the first raising call (whose message becomes the caught exception of the
`except` clause at lines 415-417). -/
def runSteps (b : BrowserBehavior) (navTime : ℚ) :
    List BrowserStep → ExecState → ExecState × Option String
  | [], st => (st, none)
  | s :: rest, st =>
    match b.failAt with
    | some (fs, msg) =>
        if s = fs then (st, some msg)
        else runSteps b navTime rest (applyStep b navTime s st)
    | none => runSteps b navTime rest (applyStep b navTime s st)

/-- Embeds `_execute_request` (lines 362-433): run the `try` block against
the provider behaviour `b`, catch any exception as `error_message`, and
always build the outcome dict of lines 422-433.  `navTime` is the elapsed
time measured at line 407; `start_time`/`end_time` are the wall-clock reads
of lines 364 and 419. -/
def executeRequest (group_id user_id request_id : ℕ) (b : BrowserBehavior)
    (start_time end_time navTime : ℚ) : RequestOutcome :=
  let st0 : ExecState := { success := false, response_time := 0, status_code := none }
  let (st, err) := runSteps b navTime execSteps st0
  { group_id := group_id, user_id := user_id, request_id := request_id,
    start_time := start_time, end_time := end_time,
    duration := end_time - start_time,
    success := st.success,
    error_message := err,
    response_time := st.response_time,
    status_code := st.status_code }

/-! ## Resource monitor (`ResourceMonitor`, lines 594-647) -/

/-- Embeds the sampling loop `_monitor_resources` (lines 618-627) over the
sequence of sample attempts the loop performs before the monitoring flag is
cleared: each attempt either yields a CPU%/memory% pair or raises.  Returns
the accumulated `cpu_samples`, `memory_samples`, and the exception (if any)
that escaped the loop — the loop body has no exception handler, so the first
raising sample terminates it. -/
def monitorResources (samples : List (Except String (ℚ × ℚ))) :
    List ℚ × List ℚ × Option String :=
  match samples with
  | [] => ([], [], none)
  | Except.error e :: _ => ([], [], some e)
  | Except.ok (c, m) :: rest =>
    let (cs, ms, err) := monitorResources rest
    (c :: cs, m :: ms, err)

/-- How the monitor task has ended (or not) when `stop_monitoring` runs. -/
inductive MonitorTaskEnd where
  | running
  | finished
  | failed (e : String)
deriving Repr, DecidableEq

/-- Embeds `stop_monitoring` (lines 608-616): cancel the task and await it,
catching only `asyncio.CancelledError`.  A still-running task is cancelled
and the `CancelledError` swallowed; a task that already died with a stored
exception re-raises it out of `stop_monitoring`. -/
def stopMonitoring : MonitorTaskEnd → Except String Unit
  | MonitorTaskEnd.running => Except.ok ()
  | MonitorTaskEnd.finished => Except.ok ()
  | MonitorTaskEnd.failed e => Except.error e

/-! ## Virtual user simulator counter discipline
(`_simulate_virtual_user`, lines 320-360) -/

/-- The orchestrator's shared mutable counters and result list. -/
structure GenState where
  active_users : ℤ
  completed_requests : ℕ
  failed_requests : ℕ
  results : List RequestOutcome

/-- The main request loop of `_simulate_virtual_user` (lines 335-353) over
the outcomes its `_execute_request` calls return: append each to
`self.results` and bump the completed/failed counter. -/
def userLoop : List RequestOutcome → GenState → GenState
  | [], st => st
  | r :: rest, st =>
    userLoop rest
      { st with
        results := st.results ++ [r],
        completed_requests :=
          if r.success then st.completed_requests + 1 else st.completed_requests,
        failed_requests :=
          if r.success then st.failed_requests else st.failed_requests + 1 }

/-- Embeds `_simulate_virtual_user` (lines 320-360): after acquiring the
semaphore, increment `self.active_users`; run the try body (ramp-up sleep,
the request loop over `outcomes`, ramp-down sleep), which may terminate with
an escaping exception `failure`; the `finally` clause decrements
`self.active_users` on every exit path before the exception (if any)
propagates. -/
def simulateVirtualUser (outcomes : List RequestOutcome)
    (failure : Option String) (st : GenState) : GenState × Option String :=
  let st1 := { st with active_users := st.active_users + 1 }
  let st2 := userLoop outcomes st1
  let st3 := { st2 with active_users := st2.active_users - 1 }
  (st3, failure)

/-- All simulators of a run, each driven to termination
(`asyncio.gather(..., return_exceptions=True)` joins them all and discards
per-simulator failures). -/
def runSimulators : List (List RequestOutcome × Option String) → GenState → GenState
  | [], st => st
  | (outs, fail) :: rest, st =>
    runSimulators rest (simulateVirtualUser outs fail st).1

/-! # Theorems -/

/-! ## Helper lemmas about lowering and substring search -/

theorem char_toNat_ofNat {k : ℕ} (h : k < 55296) : (Char.ofNat k).toNat = k := by
  have hv : Nat.isValidChar k := Or.inl h
  simp [Char.ofNat, hv, Char.ofNatAux, Char.toNat, UInt32.toNat, BitVec.toNat_ofNatLt]

/-- A character whose code point is below 65 (digits, punctuation) is hit by
`lowerChar` only by itself. -/
theorem lowerChar_eq_low {c d : Char} (hd : d.toNat < 65) (h : lowerChar c = d) :
    c = d := by
  unfold lowerChar at h
  split at h
  · exfalso
    rename_i hc
    have hval : (Char.ofNat (c.toNat + 32)).toNat = c.toNat + 32 :=
      char_toNat_ofNat (by omega)
    have := congrArg Char.toNat h
    omega
  · exact h

theorem lowerChar_fixed_low {d : Char} (hd : d.toNat < 65) : lowerChar d = d := by
  unfold lowerChar
  split
  · omega
  · rfl

/-- Lowering the haystack does not change a leading match against a needle of
code points below 65. -/
theorem startsList_map_lowerChar (n : List Char) (h : List Char)
    (hn : ∀ d ∈ n, d.toNat < 65) :
    startsList (h.map lowerChar) n = startsList h n := by
  induction n generalizing h with
  | nil => cases h <;> rfl
  | cons d nd ih =>
    cases h with
    | nil => rfl
    | cons c hc =>
      have hd : d.toNat < 65 := hn d (by simp)
      have hbeq : (lowerChar c == d) = (c == d) := by
        by_cases hcd : c = d
        · subst hcd
          simp [lowerChar_fixed_low hd]
        · have hne : lowerChar c ≠ d := fun hh => hcd (lowerChar_eq_low hd hh)
          simp [hcd, hne]
      simp only [List.map, startsList, hbeq,
        ih hc fun x hx => hn x (List.mem_cons_of_mem _ hx)]

/-- Lowering the haystack does not change substring search for a needle of
code points below 65. -/
theorem containsList_map_lowerChar (n : List Char) (h : List Char)
    (hn : ∀ d ∈ n, d.toNat < 65) :
    containsList (h.map lowerChar) n = containsList h n := by
  induction h with
  | nil => rfl
  | cons c t ih =>
    have hs := startsList_map_lowerChar n (c :: t) hn
    simp only [List.map] at hs
    simp only [List.map, containsList, ih, hs]

/-- For an all-digit needle, the source's case-sensitive test at lines 554 and
556 agrees with the case-insensitive test used everywhere else. -/
theorem strInLower_eq_strIn {needle m : String}
    (hn : ∀ d ∈ needle.data, d.toNat < 65) :
    strInLower needle m = strIn needle m :=
  containsList_map_lowerChar needle.data m.data hn

/-! ## Claim C1 — percentile -/

/-- C1: the percentile function, on a non-empty list of response times, sorts
the list, computes the fractional index `idx = p/100 * (n-1)`, returns the
element at `idx` when `idx` is integral, and otherwise linearly interpolates
between the elements at `floor idx` and `floor idx + 1`; in particular, on
`[1.0, 2.0, 3.0, 4.0, 5.0]` it returns `3.0` for `p = 50`, `4.6` for
`p = 90`, and `4.96` for `p = 99`. -/
theorem percentile_linear_interpolation :
    (∀ (data : List ℚ) (p : ℕ), data ≠ [] →
      ((((p : ℚ) / 100) * (((sortAsc data).length : ℚ) - 1)).den = 1 →
        percentile data p =
          (sortAsc data).getD
            (pyInt (((p : ℚ) / 100) * (((sortAsc data).length : ℚ) - 1))).toNat 0) ∧
      ((((p : ℚ) / 100) * (((sortAsc data).length : ℚ) - 1)).den ≠ 1 →
        percentile data p =
          (sortAsc data).getD
              (pyInt (((p : ℚ) / 100) * (((sortAsc data).length : ℚ) - 1))).toNat 0 +
            ((sortAsc data).getD
                ((pyInt (((p : ℚ) / 100) * (((sortAsc data).length : ℚ) - 1))).toNat + 1) 0 -
              (sortAsc data).getD
                (pyInt (((p : ℚ) / 100) * (((sortAsc data).length : ℚ) - 1))).toNat 0) *
              ((((p : ℚ) / 100) * (((sortAsc data).length : ℚ) - 1)) -
                ((pyInt (((p : ℚ) / 100) * (((sortAsc data).length : ℚ) - 1)) : ℤ) : ℚ)))) ∧
    percentile [1, 2, 3, 4, 5] 50 = 3 ∧
    percentile [1, 2, 3, 4, 5] 90 = 46 / 10 ∧
    percentile [1, 2, 3, 4, 5] 99 = 496 / 100 := by
  refine ⟨fun data p h => ?_,
    by norm_num [percentile, sortAsc, insertSorted, pyInt, List.getD, Int.toNat,
      List.getElem_cons_succ, List.getElem_cons_zero],
    by norm_num [percentile, sortAsc, insertSorted, pyInt, List.getD, Int.toNat,
      List.getElem_cons_succ, List.getElem_cons_zero],
    by norm_num [percentile, sortAsc, insertSorted, pyInt, List.getD, Int.toNat,
      List.getElem_cons_succ, List.getElem_cons_zero]⟩
  have hne : data.isEmpty = false := by simpa [List.isEmpty_iff] using h
  constructor
  · intro hden
    simp [percentile, hne, hden]
  · intro hden
    simp [percentile, hne, hden]

/-- C1 witness: the integral-index branch of `percentile_linear_interpolation`
applied to the concrete input `[3, 1, 2]` at `p = 50`. -/
theorem percentile_linear_interpolation_witness :
    percentile [3, 1, 2] 50 = 2 := by
  have h := (percentile_linear_interpolation.1 [3, 1, 2] 50 (by decide)).1
    (by norm_num [sortAsc, insertSorted])
  rw [h]
  norm_num [sortAsc, insertSorted, pyInt, List.getD, Int.toNat]

/-! ## Claim C2 — conservation of request counts -/

/-- C2: for every RequestOutcome list, the statistics reduction produces a
result with `total_requests = successful_requests + failed_requests` and
`success_rate = successful/total*100`, with `success_rate = 0` on the empty
list and no division error. -/
theorem calculateResults_conservation :
    ∀ (results : List RequestOutcome) (s e : ℚ),
      (calculateResults results s e).total_requests =
        (calculateResults results s e).successful_requests +
          (calculateResults results s e).failed_requests ∧
      (calculateResults results s e).success_rate =
        (if (calculateResults results s e).total_requests = 0 then (0 : ℚ)
         else ((calculateResults results s e).successful_requests : ℚ) /
             ((calculateResults results s e).total_requests : ℚ) * 100) := by
  intro results s e
  by_cases hres : results.isEmpty
  · simp [calculateResults, hres, createEmptyResult]
  · have hcount : results.countP (·.success) ≤ results.length :=
      List.countP_le_length _
    have hlen : results.length ≠ 0 := by
      cases results
      · simp at hres
      · simp
    simp only [calculateResults, hres, Bool.false_eq_true, if_false]
    constructor
    · omega
    · simp [Nat.pos_iff_ne_zero, hlen]

/-! ## Claim C3 — peak RPS versus average RPS -/

/-- C3 counterexample: one request at wall-clock second 10 during a run with
`start_time = 10`, `end_time = 10.5` gives a nonzero total duration `0.5`,
`average_rps = 1 / 0.5 = 2` but `peak_rps = 1` (one outcome in the single
one-second bucket), so peak RPS is *not* always ≥ average RPS. -/
theorem peak_rps_counterexample :
    (calculateResults
        [{ group_id := 0, user_id := 0, request_id := 0, start_time := 10,
           end_time := 41/4, duration := 1/4, success := true,
           error_message := none, response_time := 1/4,
           status_code := some 200 }] 10 (21/2)).duration ≠ 0 ∧
    ¬ ((calculateResults
        [{ group_id := 0, user_id := 0, request_id := 0, start_time := 10,
           end_time := 41/4, duration := 1/4, success := true,
           error_message := none, response_time := 1/4,
           status_code := some 200 }] 10 (21/2)).average_rps ≤
      (calculateResults
        [{ group_id := 0, user_id := 0, request_id := 0, start_time := 10,
           end_time := 41/4, duration := 1/4, success := true,
           error_message := none, response_time := 1/4,
           status_code := some 200 }] 10 (21/2)).peak_rps) := by
  constructor
  · norm_num [calculateResults]
  · norm_num [calculateResults, calculatePeakRps, windowKeys, windowCount,
      bucketOf, pyInt, List.dedup, List.count_cons, Int.toNat]

/-- Every member of a rational list is bounded by its max-fold. -/
theorem le_foldr_max (L : List ℚ) (x : ℚ) (hx : x ∈ L) : x ≤ L.foldr max 0 := by
  induction L with
  | nil => simp at hx
  | cons a t ih =>
    rcases List.mem_cons.1 hx with h | h
    · subst h
      exact le_max_left _ _
    · exact le_trans (ih h) (le_max_right _ _)

/-- C3 (amended): for a nonempty outcome list and nonzero timestamps, peak RPS
is at least the average RPS whenever the total duration is at least the
number of distinct occupied one-second buckets (the claim as stated fails
when the run is shorter than the span of its buckets, see
`peak_rps_counterexample`). -/
theorem peak_rps_ge_avg_rps_of_buckets_le_duration :
    ∀ (results : List RequestOutcome) (s e : ℚ),
      results ≠ [] → s ≠ 0 → e ≠ 0 → 0 < e - s →
      ((windowKeys results).length : ℚ) ≤ e - s →
      (calculateResults results s e).average_rps ≤
        (calculateResults results s e).peak_rps := by
  intro results s e hne hs he hd hk
  have hres : results.isEmpty = false := by
    cases results
    · simp at hne
    · rfl
  have havg : (calculateResults results s e).average_rps =
      (results.length : ℚ) / (e - s) := by
    simp [calculateResults, hres, hs, he, hd]
  have hpeak : (calculateResults results s e).peak_rps = calculatePeakRps results := by
    simp [calculateResults, hres]
  rw [havg, hpeak]
  set L := (windowKeys results).map (fun w => (windowCount results w : ℚ)) with hL
  have hpeak_eq : calculatePeakRps results = L.foldr max 0 := by
    simp [calculatePeakRps, hres, hL]
  have hsumL : L.sum = (results.length : ℚ) := by
    rw [hL]
    unfold windowKeys windowCount
    rw [show ((results.map bucketOf).dedup.map
          fun w => (((results.map bucketOf).count w : ℕ) : ℚ)) =
        ((results.map bucketOf).dedup.map
          fun w => (results.map bucketOf).count w).map (fun n : ℕ => (n : ℚ)) by
      rw [List.map_map]
      rfl]
    rw [← Nat.cast_list_sum, List.sum_map_count_dedup_eq_length, List.length_map]
  have hbound : L.sum ≤ L.length • (L.foldr max 0) :=
    List.sum_le_card_nsmul L _ (fun x hx => le_foldr_max L x hx)
  have hlenL : L.length = (windowKeys results).length := List.length_map _ _
  have hpeak_nonneg : 0 ≤ L.foldr max 0 := by
    induction L with
    | nil => simp
    | cons a t ih => exact le_trans ih (le_max_right _ _)
  rw [hpeak_eq, div_le_iff₀ hd]
  calc (results.length : ℚ) = L.sum := hsumL.symm
    _ ≤ L.length • (L.foldr max 0) := hbound
    _ = ((windowKeys results).length : ℚ) * (L.foldr max 0) := by
        rw [nsmul_eq_mul, hlenL]
    _ ≤ (e - s) * (L.foldr max 0) :=
        mul_le_mul_of_nonneg_right hk hpeak_nonneg
    _ = L.foldr max 0 * (e - s) := mul_comm _ _

/-- C3 witness: two requests in the buckets of seconds 10 and 11 during a
two-second run satisfy the amended inequality. -/
theorem peak_rps_ge_avg_rps_witness :
    (calculateResults
        [{ group_id := 0, user_id := 0, request_id := 0, start_time := 10,
           end_time := 41/4, duration := 1/4, success := true,
           error_message := none, response_time := 1/4, status_code := some 200 },
         { group_id := 0, user_id := 1, request_id := 0, start_time := 11,
           end_time := 45/4, duration := 1/4, success := true,
           error_message := none, response_time := 1/4, status_code := some 200 }]
        10 12).average_rps ≤
    (calculateResults
        [{ group_id := 0, user_id := 0, request_id := 0, start_time := 10,
           end_time := 41/4, duration := 1/4, success := true,
           error_message := none, response_time := 1/4, status_code := some 200 },
         { group_id := 0, user_id := 1, request_id := 0, start_time := 11,
           end_time := 45/4, duration := 1/4, success := true,
           error_message := none, response_time := 1/4, status_code := some 200 }]
        10 12).peak_rps :=
  peak_rps_ge_avg_rps_of_buckets_le_duration _ 10 12 (by simp) (by norm_num)
    (by norm_num) (by norm_num)
    (by norm_num [windowKeys, bucketOf, pyInt, List.dedup, Int.toNat])

/-! ## Claim C4 — ramp-up staggering -/

/-- C4 counterexample: in a thread group of 4 users with `ramp_up = 8` under
a top-level config of 8 virtual users, the source staggers by
`user_id / config.virtual_users` and yields delays `[0, 1, 2, 3]`, not the
claimed `(user_id / group_user_count) * ramp_up = [0, 2, 4, 6]`. -/
theorem rampDelay_group_count_counterexample :
    groupRampDelays 8 ⟨4, 8⟩ = [0, 1, 2, 3] ∧
    groupRampDelays 8 ⟨4, 8⟩ ≠ [0, 2, 4, 6] := by
  constructor <;> norm_num [groupRampDelays, rampDelay, List.range_succ]

/-- C4 (amended): with `ramp_up > 0` the ramp-up delay equals
`(user_id / config.virtual_users) * ramp_up` where the divisor is the
*top-level configured* virtual-user count, not the group's own count; when
the two coincide (the implicit default group), 4 users with `ramp_up = 8`
start at delays 0, 2, 4, 6. -/
theorem rampDelay_config_count :
    (∀ (cfg_vu user_id ru : ℕ), 0 < ru →
      rampDelay cfg_vu user_id ru = ((user_id : ℚ) / (cfg_vu : ℚ)) * (ru : ℚ)) ∧
    groupRampDelays 4 ⟨4, 8⟩ = [0, 2, 4, 6] := by
  constructor
  · intro cfg uid ru h
    simp [rampDelay, h]
  · norm_num [groupRampDelays, rampDelay, List.range_succ]

/-- C4 witness: `rampDelay_config_count` applied at user 1 of 4 with
`ramp_up = 8`. -/
theorem rampDelay_config_count_witness :
    rampDelay 4 1 8 = 2 := by
  rw [rampDelay_config_count.1 4 1 8 (by norm_num)]
  norm_num

/-! ## Claim C5 — executor exception handling -/

/-- C5 counterexample: when `page.close()` raises after a successful
navigation, the executor still catches the exception and records the
message, but `success` was already set to `True` at line 408 and stays
`true` — contradicting the claim that every caught exception yields
`success = false`. -/
theorem executeRequest_teardown_counterexample :
    (executeRequest 0 0 0 ⟨some (BrowserStep.closePage, "boom"), some 200⟩
        10 11 1).success = true ∧
    (executeRequest 0 0 0 ⟨some (BrowserStep.closePage, "boom"), some 200⟩
        10 11 1).error_message = some "boom" :=
  ⟨rfl, rfl⟩

/-- C5 (amended): every exception the provider raises is caught (the executor
totally returns a well-formed outcome carrying the ids, timestamps and the
raised message — nothing propagates), and `success = false` exactly when the
exception occurred at launch, context creation, page creation or navigation;
an exception in the teardown closes leaves `success = true`. -/
theorem executeRequest_catches_exceptions :
    ∀ (gid uid rid : ℕ) (b : BrowserBehavior) (st et nav : ℚ)
      (s : BrowserStep) (msg : String),
      b.failAt = some (s, msg) →
      (executeRequest gid uid rid b st et nav).error_message = some msg ∧
      ((executeRequest gid uid rid b st et nav).success = false ↔
        (s = BrowserStep.launch ∨ s = BrowserStep.newContext ∨
          s = BrowserStep.newPage ∨ s = BrowserStep.navigate)) ∧
      (executeRequest gid uid rid b st et nav).group_id = gid ∧
      (executeRequest gid uid rid b st et nav).user_id = uid ∧
      (executeRequest gid uid rid b st et nav).request_id = rid ∧
      (executeRequest gid uid rid b st et nav).start_time = st ∧
      (executeRequest gid uid rid b st et nav).end_time = et ∧
      (executeRequest gid uid rid b st et nav).duration = et - st := by
  intro gid uid rid b st et nav s msg hfail
  obtain ⟨failAt, gotoStatus⟩ := b
  simp only at hfail
  cases s <;>
    simp [executeRequest, runSteps, execSteps, applyStep, hfail]

/-- C5 witness: `executeRequest_catches_exceptions` applied to a launch
failure with message "crash". -/
theorem executeRequest_catches_exceptions_witness :
    (executeRequest 1 2 3 ⟨some (BrowserStep.launch, "crash"), none⟩
        5 7 0).error_message = some "crash" ∧
    (executeRequest 1 2 3 ⟨some (BrowserStep.launch, "crash"), none⟩
        5 7 0).success = false := by
  have h := executeRequest_catches_exceptions 1 2 3
    ⟨some (BrowserStep.launch, "crash"), none⟩ 5 7 0 BrowserStep.launch "crash" rfl
  exact ⟨h.1, h.2.1.mpr (Or.inl rfl)⟩

/-! ## Claim C6 — error categorization -/

/-- C6: the categorizer classifies by case-insensitive substring match, in
order, against timeout, network/connection, 404/not found, 500/server error,
javascript/script, with everything else falling into Other Error (the
source's case-sensitive `"404"`/`"500"` tests coincide with case-insensitive
matching because digits have no case); the four concrete examples evaluate
as claimed. -/
theorem categorizeError_case_insensitive_ordered :
    (∀ m : String, categorizeError m = specCategorizeError m) ∧
    categorizeError "Timeout 30000ms exceeded" = "Timeout" ∧
    categorizeError "net::ERR_CONNECTION_REFUSED" = "Network Error" ∧
    categorizeError "404" = "404 Not Found" ∧
    categorizeError "weird failure xyz" = "Other Error" := by
  refine ⟨fun m => ?_, by decide, by decide, by decide, by decide⟩
  have h404 : strInLower "404" m = strIn "404" m :=
    strInLower_eq_strIn (by decide)
  have h500 : strInLower "500" m = strIn "500" m :=
    strInLower_eq_strIn (by decide)
  simp only [categorizeError, specCategorizeError, h404, h500]

/-! ## Claim C7 — capacity tiering -/

/-- C7: the profiler returns tier large with maxVU 10000 and maxRPS 25000
when `cpu ≥ 16 ∧ mem ≥ 32`, tier medium with maxVU 5000 and maxRPS 10000
when that fails but `cpu ≥ 8 ∧ mem ≥ 16`, and otherwise tier small with
maxVU 1000 and maxRPS 1000; in particular `cpu = 8, mem = 15` yields small
because the memory gate fails even though the CPU qualifies for medium. -/
theorem getSystemSpecs_policy :
    (∀ (cpu : ℕ) (mem : ℚ),
      (16 ≤ cpu ∧ 32 ≤ mem →
        getSystemSpecs cpu mem =
          { cpu_count := cpu, memory_gb := mem, max_recommended_vu := 10000,
            max_recommended_rps := 25000, scale := LoadGeneratorScale.large }) ∧
      (¬(16 ≤ cpu ∧ 32 ≤ mem) → 8 ≤ cpu ∧ 16 ≤ mem →
        getSystemSpecs cpu mem =
          { cpu_count := cpu, memory_gb := mem, max_recommended_vu := 5000,
            max_recommended_rps := 10000, scale := LoadGeneratorScale.medium }) ∧
      (¬(16 ≤ cpu ∧ 32 ≤ mem) → ¬(8 ≤ cpu ∧ 16 ≤ mem) →
        getSystemSpecs cpu mem =
          { cpu_count := cpu, memory_gb := mem, max_recommended_vu := 1000,
            max_recommended_rps := 1000, scale := LoadGeneratorScale.small })) ∧
    getSystemSpecs 8 15 =
      { cpu_count := 8, memory_gb := 15, max_recommended_vu := 1000,
        max_recommended_rps := 1000, scale := LoadGeneratorScale.small } := by
  constructor
  · intro cpu mem
    refine ⟨fun h => ?_, fun h1 h2 => ?_, fun h1 h2 => ?_⟩ <;>
      simp [getSystemSpecs, ge_iff_le, *]
  · norm_num [getSystemSpecs]

/-- C7 witness: the three tier cases of `getSystemSpecs_policy` at the
concrete hosts 16/32, 8/16 and 4/8. -/
theorem getSystemSpecs_policy_witness :
    getSystemSpecs 16 32 =
      { cpu_count := 16, memory_gb := 32, max_recommended_vu := 10000,
        max_recommended_rps := 25000, scale := LoadGeneratorScale.large } ∧
    getSystemSpecs 8 16 =
      { cpu_count := 8, memory_gb := 16, max_recommended_vu := 5000,
        max_recommended_rps := 10000, scale := LoadGeneratorScale.medium } ∧
    getSystemSpecs 4 8 =
      { cpu_count := 4, memory_gb := 8, max_recommended_vu := 1000,
        max_recommended_rps := 1000, scale := LoadGeneratorScale.small } :=
  ⟨(getSystemSpecs_policy.1 16 32).1 (by norm_num),
    (getSystemSpecs_policy.1 8 16).2.1 (by norm_num) (by norm_num),
    (getSystemSpecs_policy.1 4 8).2.2 (by norm_num) (by norm_num)⟩

/-! ## Claim C8 — capacity rejection before any work -/

/-- C8: if the configured virtual users exceed the recommendation, or the
sampled CPU or memory percentage exceeds its alarm threshold, then
`run_load_test` fails with the capacity-exceeded error before any browser
work, and the result list stays empty (no partial run). -/
theorem runLoadTest_capacity_rejection :
    ∀ (specs : SystemSpecs) (config : LoadGeneratorConfig) (host : HostSample)
      (workload : List RequestOutcome) (s e : ℚ),
      (specs.max_recommended_vu < config.virtual_users ∨
        config.max_cpu_usage_percent < host.cpu_percent ∨
        config.max_memory_usage_percent < host.memory_percent) →
      runLoadTest specs config host workload s e =
        (Except.error "System capacity insufficient for requested load", []) := by
  intro specs config host workload s e h
  have hv : validateSystemCapacity specs config host = false := by
    unfold validateSystemCapacity
    split_ifs with h1 h2 h3
    · rfl
    · rfl
    · rfl
    · rcases h with h | h | h
      · omega
      · exact absurd h h2
      · exact absurd h h3
  simp [runLoadTest, hv]

/-- C8 witness: a small host (4 CPUs, 8 GB, maxVU 1000) rejects a request
for 2000 virtual users. -/
theorem runLoadTest_capacity_rejection_witness :
    runLoadTest (getSystemSpecs 4 8) { virtual_users := 2000 } ⟨10, 10⟩ [] 0 0 =
      (Except.error "System capacity insufficient for requested load", []) :=
  runLoadTest_capacity_rejection _ _ _ _ _ _ (Or.inl (by norm_num [getSystemSpecs]))

/-! ## Claim C9 — monitor sampling failure -/

/-- C9 counterexample: the sampling loop has no exception handler, so a
failing sample is *not* skipped: with samples ok(1,1), raise "boom",
ok(2,2), the loop records only `[1]`, terminates with the exception, and
`stop_monitoring` re-raises it instead of completing without raising. -/
theorem monitorResources_failure_counterexample :
    monitorResources
        [Except.ok (1, 1), Except.error "boom", Except.ok (2, 2)] =
      ([1], [1], some "boom") ∧
    (monitorResources
        [Except.ok (1, 1), Except.error "boom", Except.ok (2, 2)]).1 ≠ [1, 2] ∧
    stopMonitoring (MonitorTaskEnd.failed "boom") = Except.error "boom" := by
  refine ⟨rfl, ?_, rfl⟩
  simp [monitorResources]

/-- C9 (amended): the first failing sample terminates the sampling loop,
keeping exactly the samples gathered before it and carrying the exception
out of the loop; `stop_monitoring` then re-raises that exception (it
swallows only cancellation). -/
theorem monitorResources_stops_at_first_failure :
    ∀ (pre : List (ℚ × ℚ)) (e : String) (post : List (Except String (ℚ × ℚ))),
      monitorResources (pre.map Except.ok ++ Except.error e :: post) =
        (pre.map Prod.fst, pre.map Prod.snd, some e) ∧
      stopMonitoring (MonitorTaskEnd.failed e) = Except.error e := by
  intro pre e post
  refine ⟨?_, rfl⟩
  induction pre with
  | nil => rfl
  | cons x t ih =>
    obtain ⟨c, m⟩ := x
    simp [monitorResources, ih]

/-! ## Claim C10 — active-user counter balance -/

/-- The request loop never touches the active-user counter. -/
theorem userLoop_active_users (l : List RequestOutcome) (st : GenState) :
    (userLoop l st).active_users = st.active_users := by
  induction l generalizing st with
  | nil => rfl
  | cons r t ih => simp [userLoop, ih]

/-- C10: each simulator increments the shared active-user counter once after
acquiring the semaphore and decrements it once in its `finally` on every
exit path (normal or exceptional), so one simulator leaves the counter
unchanged and after all simulators of a run have terminated the counter
equals its value before the run. -/
theorem active_users_balanced :
    (∀ (outs : List RequestOutcome) (fail : Option String) (st : GenState),
      ((simulateVirtualUser outs fail st).1).active_users = st.active_users) ∧
    (∀ (sims : List (List RequestOutcome × Option String)) (st : GenState),
      (runSimulators sims st).active_users = st.active_users) := by
  have hone : ∀ (outs : List RequestOutcome) (fail : Option String) (st : GenState),
      ((simulateVirtualUser outs fail st).1).active_users = st.active_users := by
    intro outs fail st
    simp [simulateVirtualUser, userLoop_active_users]
  refine ⟨hone, fun sims => ?_⟩
  induction sims with
  | nil => intro st; rfl
  | cons s rest ih =>
    intro st
    obtain ⟨outs, fail⟩ := s
    rw [runSimulators, ih, hone]

end LoadGen
